import Mathlib

/-!
Shallow embedding of `src/hello-myo.cpp` (myo-bikesigns).

Floating-point arithmetic is modelled over the reals; C `atan2f` is modelled
by the complex argument, `asinf` by `Real.arcsin`, `sqrtf` by `Real.sqrt`.
The C++ `static_cast<int>` on a float truncates toward zero, modelled by
`trunc`.  Conversions of `int` (and of the result of `size_t` subtraction)
to `size_t` wrap modulo `2 ^ 64`, modelled by `sizeT`.
-/

namespace BikeSigns

open Real

/-- C `atan2f y x`: the four-quadrant arctangent, i.e. the argument of the
complex number `x + y i`. -/
noncomputable def atan2 (y x : ℝ) : ℝ := Complex.arg ⟨x, y⟩

/-- `static_cast<int>` applied to a floating value: truncation toward zero. -/
noncomputable def trunc (x : ℝ) : ℤ := if 0 ≤ x then ⌊x⌋ else -⌊-x⌋

/-- Conversion of a signed integer value to `size_t` (64-bit), wrapping
modulo `2 ^ 64`; this is what `std::string(count, ch)` applies to an `int`
count, and what `size_t` subtraction produces. -/
def sizeT (n : ℤ) : ℕ := (n % (2 ^ 64)).toNat

/-- `myo::Quaternion<float>` as delivered to `onOrientationData`. -/
structure Quat where
  x : ℝ
  y : ℝ
  z : ℝ
  w : ℝ

/-- Modelled from the spec: `myo::Pose`, the SDK's enumerated classified
gesture type (the SDK header is not part of this repository; the spec calls
it "an external, SDK-classified discrete gesture state (e.g., fist, relaxed,
wave)").  The constructors are the SDK's classified gestures; the code only
names `myo::Pose::fist` and the default-constructed pose. -/
inductive Pose where
  | rest
  | fist
  | waveIn
  | waveOut
  | fingersSpread
  | reserved1
  | thumbToPinky
  | unknown
deriving DecidableEq, Repr

/-- Modelled from the spec: `myo::Pose::toString()`, the human-readable name
of the classified gesture (SDK code, not in this repository). -/
def Pose.toStr : Pose → List Char
  | Pose.rest => "rest".data
  | Pose.fist => "fist".data
  | Pose.waveIn => "waveIn".data
  | Pose.waveOut => "waveOut".data
  | Pose.fingersSpread => "fingersSpread".data
  | Pose.reserved1 => "reserved1".data
  | Pose.thumbToPinky => "thumbToPinky".data
  | Pose.unknown => "unknown".data

/-- `myo::Myo::VibrationType` (only `VibrationMedium` is used). -/
inductive VibrationKind where
  | short
  | medium
  | long
deriving DecidableEq, Repr

/-- An observable SDK call issued by a callback (`myo->vibrate(...)`). -/
inductive Action where
  | vibrate (v : VibrationKind)
deriving DecidableEq, Repr

/-- The fields of `DataCollector`: three integer bar lengths and the current
pose. -/
structure State where
  roll_w : ℤ
  pitch_w : ℤ
  yaw_w : ℤ
  currentPose : Pose

/-- The `DataCollector` constructor: `roll_w(0), pitch_w(0), yaw_w(0),
currentPose()` (the default-constructed pose is the rest pose). -/
def initState : State :=
  { roll_w := 0, pitch_w := 0, yaw_w := 0, currentPose := Pose.rest }

/-- `DataCollector::onOrientationData`, translated line by line: normalize
the quaternion, compute roll/pitch/yaw by the closed-form aerospace formula,
and rescale each onto 18 integer buckets. -/
noncomputable def onOrientationData (s : State) (quat : Quat) : State :=
  let norm : ℝ :=
    Real.sqrt (quat.x * quat.x + quat.y * quat.y + quat.z * quat.z + quat.w * quat.w)
  let normalized : Quat := ⟨quat.x / norm, quat.y / norm, quat.z / norm, quat.w / norm⟩
  let roll : ℝ :=
    atan2 (2 * (normalized.w * normalized.x + normalized.y * normalized.z))
      (1 - 2 * (normalized.x * normalized.x + normalized.y * normalized.y))
  let pitch : ℝ :=
    Real.arcsin (2 * (normalized.w * normalized.y - normalized.z * normalized.x))
  let yaw : ℝ :=
    atan2 (2 * (normalized.w * normalized.z + normalized.x * normalized.y))
      (1 - 2 * (normalized.y * normalized.y + normalized.z * normalized.z))
  { s with
    roll_w := trunc ((roll + π) / (π * 2) * 18)
    pitch_w := trunc ((pitch + π / 2) / π * 18)
    yaw_w := trunc ((yaw + π) / (π * 2) * 18) }

/-- `DataCollector::onPose`: store the pose; if the (just stored) current
pose is the fist pose and `pitch_w < 5`, issue a medium vibration. -/
def onPose (s : State) (pose : Pose) : State × List Action :=
  let s1 : State := { s with currentPose := pose }
  if s1.currentPose = Pose.fist then
    if s1.pitch_w < 5 then
      (s1, [Action.vibrate VibrationKind.medium])
    else (s1, [])
  else (s1, [])

/-- One bracketed bar gauge as printed by `DataCollector::print`:
`'[' << std::string(w, '*') << std::string(18 - w, ' ') << ']'`. -/
def gauge (w : ℤ) : List Char :=
  [ '[' ] ++ List.replicate (sizeT w) '*' ++ List.replicate (sizeT (18 - w)) ' ' ++ [ ']' ]

/-- The gesture-name field printed by `DataCollector::print`:
`'[' << poseString << std::string(16 - poseString.size(), ' ') << ']'`;
the subtraction `16 - poseString.size()` is `size_t` arithmetic. -/
def poseField (p : Pose) : List Char :=
  let poseString : List Char := Pose.toStr p
  [ '[' ] ++ poseString ++ List.replicate (sizeT (16 - (poseString.length : ℤ))) ' ' ++ [ ']' ]

/-- The full line written by `DataCollector::print`: a carriage return, the
three gauges, and the gesture-name field. -/
def printLine (s : State) : List Char :=
  [ '\r' ] ++ gauge s.roll_w ++ gauge s.pitch_w ++ gauge s.yaw_w ++ poseField s.currentPose

/-- `DataCollector::print` as a step: it only reads the fields and emits
output. -/
def printStep (s : State) : State × List Char := (s, printLine s)

/-- An event delivered by the SDK event pump to the listener. -/
inductive Event where
  | orientation (quat : Quat)
  | poseChange (p : Pose)

/-- Dispatch one event to the listener, returning the new state and the SDK
calls issued. -/
noncomputable def step (s : State) (e : Event) : State × List Action :=
  match e with
  | Event.orientation quat => (onOrientationData s quat, [])
  | Event.poseChange p => onPose s p

/-- The state after a sequence of delivered events, starting from the
constructed `DataCollector`. -/
noncomputable def runTrace (es : List Event) : State :=
  es.foldl (fun s e => (step s e).1) initState

/-- Modelled from the spec: the outcome of `hub.waitForAnyMyo(10000)` — the
SDK's blocking discovery call with a 10-second timeout either finds a device
or returns a null pointer (the SDK itself is not in this repository). -/
inductive DiscoveryOutcome where
  | found
  | timedOut
deriving DecidableEq, Repr

/-- The single error kind this program can raise: the `std::runtime_error`
thrown in `main` when `waitForAnyMyo` returns null. -/
inductive ProgError where
  | unableToFindMyo
deriving DecidableEq, Repr

/-- The message carried by the thrown error (`e.what()`). -/
def ProgError.what : ProgError → List Char
  | ProgError.unableToFindMyo => "Unable to find a Myo!".data

/-- The body of `main`'s `try` block up to entering the infinite loop: the
only statement of this program that raises is the null check after
discovery. -/
def tryBody (d : DiscoveryOutcome) : Except ProgError Unit :=
  match d with
  | DiscoveryOutcome.timedOut => Except.error ProgError.unableToFindMyo
  | DiscoveryOutcome.found => Except.ok ()

/-- What `main` does at top level as observed from outside: lines written to
standard error, whether the user was prompted for a key press
(`cin.ignore()`), and the exit status (`none` means the program never
leaves its loop). -/
structure MainResult where
  stderrLines : List (List Char)
  prompted : Bool
  exitCode : Option ℤ
deriving DecidableEq, Repr

/-- `main`'s top-level catch: on an error, print `"Error: " + e.what()` and
a prompt to standard error, wait for a key press, and return 1; otherwise
the loop runs forever. -/
def runMain (d : DiscoveryOutcome) : MainResult :=
  match tryBody d with
  | Except.ok _ => { stderrLines := [], prompted := false, exitCode := none }
  | Except.error e =>
    { stderrLines := ["Error: ".data ++ ProgError.what e, "Press enter to continue.".data]
      prompted := true
      exitCode := some 1 }

/-- The norm computed on line 31: `sqrtf(x*x + y*y + z*z + w*w)`. -/
noncomputable def quatNorm (q : Quat) : ℝ :=
  Real.sqrt (q.x * q.x + q.y * q.y + q.z * q.z + q.w * q.w)

/-- The normalization step of lines 31-32: divide every component by the
computed norm. -/
noncomputable def normalize (q : Quat) : Quat :=
  ⟨q.x / quatNorm q, q.y / quatNorm q, q.z / quatNorm q, q.w / quatNorm q⟩

/-- Modelled from the spec: the conversion with its input domain made
explicit — the spec asks for "input-domain validation (rejecting a zero-norm
quaternion to avoid division by zero)".  The divisions on line 32 of the
code have a zero divisor exactly when `quatNorm q = 0`. -/
noncomputable def onOrientationDataChecked (s : State) (q : Quat) : Option State :=
  if quatNorm q = 0 then none else some (onOrientationData s q)

/-- The three bar-length fields all lie in the display range `[0, 18]`. -/
def bucketsInRange (s : State) : Prop :=
  0 ≤ s.roll_w ∧ s.roll_w ≤ 18 ∧ 0 ≤ s.pitch_w ∧ s.pitch_w ≤ 18
    ∧ 0 ≤ s.yaw_w ∧ s.yaw_w ≤ 18

/-! ### Helper lemmas -/

lemma trunc_of_nonneg {x : ℝ} (h : 0 ≤ x) : trunc x = ⌊x⌋ := if_pos h

lemma trunc_nonneg {x : ℝ} (h : 0 ≤ x) : 0 ≤ trunc x := by
  rw [trunc_of_nonneg h]
  exact Int.floor_nonneg.mpr h

lemma trunc_le_of_le {x : ℝ} {n : ℤ} (h0 : 0 ≤ x) (h : x ≤ (n : ℝ)) : trunc x ≤ n := by
  rw [trunc_of_nonneg h0]
  calc ⌊x⌋ ≤ ⌊(n : ℝ)⌋ := Int.floor_le_floor h
    _ = n := Int.floor_intCast n

lemma trunc_intCast (n : ℤ) : trunc ((n : ℤ) : ℝ) = n := by
  unfold trunc
  split_ifs with h
  · exact Int.floor_intCast n
  · rw [show (-((n : ℤ) : ℝ)) = (((-n : ℤ) : ℤ) : ℝ) by push_cast; ring, Int.floor_intCast]
    ring

lemma sizeT_small {n : ℤ} (h0 : 0 ≤ n) (h1 : n ≤ 18) : sizeT n = n.toNat := by
  unfold sizeT
  have h2 : (2 : ℤ) ^ 64 = 18446744073709551616 := by norm_num
  rw [h2]
  omega

/-- Rescaling an angle in `[-π, π]` by `(a + π) / (2π) * 18` and truncating
lands in `[0, 18]`. -/
lemma wideScaled_mem {a : ℝ} (h0 : -π ≤ a) (h1 : a ≤ π) :
    0 ≤ trunc ((a + π) / (π * 2) * 18) ∧ trunc ((a + π) / (π * 2) * 18) ≤ 18 := by
  have hπ : (0 : ℝ) < π := Real.pi_pos
  have hx0 : 0 ≤ (a + π) / (π * 2) * 18 := by
    have : 0 ≤ a + π := by linarith
    positivity
  have hq : (a + π) / (π * 2) ≤ 1 := by
    rw [div_le_one (by linarith)]
    linarith
  have hx1 : (a + π) / (π * 2) * 18 ≤ ((18 : ℤ) : ℝ) := by
    push_cast
    nlinarith
  exact ⟨trunc_nonneg hx0, trunc_le_of_le hx0 hx1⟩

/-- Rescaling an angle in `[-π/2, π/2]` by `(a + π/2) / π * 18` and
truncating lands in `[0, 18]`. -/
lemma pitchScaled_mem {a : ℝ} (h0 : -(π / 2) ≤ a) (h1 : a ≤ π / 2) :
    0 ≤ trunc ((a + π / 2) / π * 18) ∧ trunc ((a + π / 2) / π * 18) ≤ 18 := by
  have hπ : (0 : ℝ) < π := Real.pi_pos
  have hx0 : 0 ≤ (a + π / 2) / π * 18 := by
    have : 0 ≤ a + π / 2 := by linarith
    positivity
  have hq : (a + π / 2) / π ≤ 1 := by
    rw [div_le_one hπ]
    linarith
  have hx1 : (a + π / 2) / π * 18 ≤ ((18 : ℤ) : ℝ) := by
    push_cast
    nlinarith
  exact ⟨trunc_nonneg hx0, trunc_le_of_le hx0 hx1⟩

lemma atan2_mem (y x : ℝ) : -π < atan2 y x ∧ atan2 y x ≤ π := by
  have h := Complex.arg_mem_Ioc ⟨x, y⟩
  exact ⟨h.1, h.2⟩

lemma onOrientationData_buckets (s : State) (q : Quat) :
    bucketsInRange (onOrientationData s q) := by
  unfold onOrientationData bucketsInRange
  dsimp only
  refine ⟨(wideScaled_mem (atan2_mem _ _).1.le (atan2_mem _ _).2).1,
    (wideScaled_mem (atan2_mem _ _).1.le (atan2_mem _ _).2).2, ?_, ?_,
    (wideScaled_mem (atan2_mem _ _).1.le (atan2_mem _ _).2).1,
    (wideScaled_mem (atan2_mem _ _).1.le (atan2_mem _ _).2).2⟩
  · exact (pitchScaled_mem (Set.mem_Icc.mp (Real.arcsin_mem_Icc _)).1
      (Set.mem_Icc.mp (Real.arcsin_mem_Icc _)).2).1
  · exact (pitchScaled_mem (Set.mem_Icc.mp (Real.arcsin_mem_Icc _)).1
      (Set.mem_Icc.mp (Real.arcsin_mem_Icc _)).2).2

lemma onPose_state_buckets (s : State) (p : Pose) (hs : bucketsInRange s) :
    bucketsInRange (onPose s p).1 := by
  unfold onPose
  dsimp only
  split_ifs <;> exact hs

lemma runTrace_aux (s : State) (hs : bucketsInRange s) (es : List Event) :
    bucketsInRange (es.foldl (fun s e => (step s e).1) s) := by
  induction es generalizing s with
  | nil => exact hs
  | cons e es ih =>
    apply ih
    cases e with
    | orientation q => exact onOrientationData_buckets s q
    | poseChange p => exact onPose_state_buckets s p hs

/-! ### Claim theorems -/

/-- C1: for every orientation event, the Euler angles are computed from the
normalized quaternion by the standard aerospace closed-form formula —
roll = atan2(2(wx + yz), 1 − 2(x² + y²)), pitch = asin(2(wy − zx)),
yaw = atan2(2(wz + xy), 1 − 2(y² + z²)) — and each angle is linearly
rescaled from its range onto the fixed bucket count 18. -/
theorem orientation_euler_formula (s : State) (q : Quat) :
    (onOrientationData s q).roll_w =
      trunc ((atan2 (2 * ((normalize q).w * (normalize q).x + (normalize q).y * (normalize q).z))
          (1 - 2 * ((normalize q).x ^ 2 + (normalize q).y ^ 2)) + π) / (2 * π) * 18)
    ∧ (onOrientationData s q).pitch_w =
      trunc ((Real.arcsin (2 * ((normalize q).w * (normalize q).y -
          (normalize q).z * (normalize q).x)) + π / 2) / π * 18)
    ∧ (onOrientationData s q).yaw_w =
      trunc ((atan2 (2 * ((normalize q).w * (normalize q).z + (normalize q).x * (normalize q).y))
          (1 - 2 * ((normalize q).y ^ 2 + (normalize q).z ^ 2)) + π) / (2 * π) * 18) := by
  unfold onOrientationData normalize quatNorm
  dsimp only
  refine ⟨?_, ?_, ?_⟩ <;> first
  | rfl
  | (congr 1; ring_nf)

/-- C2: for angles in the expected trigonometric ranges (roll/yaw in
`[-π, π]`, pitch in `[-π/2, π/2]`) the scaled buckets lie in `[0, 18]`; the
three fields start at 0 and stay in `[0, 18]` after every delivered event. -/
theorem buckets_in_range :
    (∀ a : ℝ, -π ≤ a → a ≤ π →
      0 ≤ trunc ((a + π) / (π * 2) * 18) ∧ trunc ((a + π) / (π * 2) * 18) ≤ 18)
    ∧ (∀ a : ℝ, -(π / 2) ≤ a → a ≤ π / 2 →
      0 ≤ trunc ((a + π / 2) / π * 18) ∧ trunc ((a + π / 2) / π * 18) ≤ 18)
    ∧ bucketsInRange initState
    ∧ (∀ es : List Event, bucketsInRange (runTrace es)) :=
  ⟨fun _ h0 h1 => wideScaled_mem h0 h1,
   fun _ h0 h1 => pitchScaled_mem h0 h1,
   by norm_num [bucketsInRange, initState],
   fun es => runTrace_aux initState (by norm_num [bucketsInRange, initState]) es⟩

/-- Witness for C2: the hypotheses hold at the angle 0 and the empty trace,
and there the conclusions hold. -/
theorem buckets_in_range_witness :
    (0 ≤ trunc ((0 + π) / (π * 2) * 18) ∧ trunc ((0 + π) / (π * 2) * 18) ≤ 18)
    ∧ bucketsInRange (runTrace []) :=
  ⟨buckets_in_range.1 0 (neg_nonpos.mpr Real.pi_pos.le) Real.pi_pos.le,
   buckets_in_range.2.2.2 []⟩

/-- C3: the identity quaternion (0, 0, 0, 1) yields roll = pitch = yaw = 0
and bucket index 9 for each of the three gauges. -/
theorem identity_quaternion_buckets :
    atan2 0 1 = 0 ∧ Real.arcsin 0 = 0
    ∧ ∀ s : State,
      (onOrientationData s ⟨0, 0, 0, 1⟩).roll_w = 9
      ∧ (onOrientationData s ⟨0, 0, 0, 1⟩).pitch_w = 9
      ∧ (onOrientationData s ⟨0, 0, 0, 1⟩).yaw_w = 9 := by
  have harg : atan2 0 1 = 0 := by
    unfold atan2
    rw [show ((⟨1, 0⟩ : ℂ)) = (1 : ℂ) by norm_num [Complex.ext_iff]]
    exact Complex.arg_one
  have hwide : trunc (π / (π * 2) * 18) = 9 := by
    rw [show π / (π * 2) * 18 = ((9 : ℤ) : ℝ) by
      push_cast
      field_simp
      ring]
    exact trunc_intCast 9
  have hpit : trunc (π / 2 / π * 18) = 9 := by
    rw [show π / 2 / π * 18 = ((9 : ℤ) : ℝ) by
      push_cast
      field_simp
      ring]
    exact trunc_intCast 9
  refine ⟨harg, Real.arcsin_zero, fun s => ?_⟩
  unfold onOrientationData
  dsimp only
  norm_num [Real.sqrt_one, harg, Real.arcsin_zero, hwide, hpit]

/-- C7: normalization is idempotent on a quaternion whose norm is already 1:
dividing each component by the computed norm returns the same quaternion
(exactly, in the real-number model of the float arithmetic). -/
theorem normalize_idempotent (q : Quat) (h : quatNorm q = 1) : normalize q = q := by
  unfold normalize
  rw [h]
  cases q
  simp

/-- Witness for C7: the unit quaternion (0, 0, 0, 1) has norm 1 and is left
unchanged by normalization. -/
theorem normalize_idempotent_witness :
    quatNorm ⟨0, 0, 0, 1⟩ = 1 ∧ normalize ⟨0, 0, 0, 1⟩ = ⟨0, 0, 0, 1⟩ := by
  have h : quatNorm (⟨0, 0, 0, 1⟩ : Quat) = 1 := by
    unfold quatNorm
    norm_num
  exact ⟨h, normalize_idempotent ⟨0, 0, 0, 1⟩ h⟩

/-- C4: for every bucket value `b` in `[0, 18]`, the rendered gauge consists
of exactly `b` asterisks followed by `18 − b` spaces between its brackets;
and `print()` renders exactly the three gauges (and the pose field) this
way. -/
theorem gauge_shape (b : ℤ) (h0 : 0 ≤ b) (h1 : b ≤ 18) :
    (gauge b = [ '[' ] ++ List.replicate b.toNat '*'
        ++ List.replicate (18 - b.toNat) ' ' ++ [ ']' ])
    ∧ ∀ s : State, printLine s =
        [ '\r' ] ++ gauge s.roll_w ++ gauge s.pitch_w ++ gauge s.yaw_w
          ++ poseField s.currentPose := by
  have e1 : sizeT b = b.toNat := sizeT_small h0 h1
  have e2 : sizeT (18 - b) = 18 - b.toNat := by
    rw [sizeT_small (by omega) (by omega)]
    omega
  refine ⟨?_, fun s => rfl⟩
  unfold gauge
  rw [e1, e2]

/-- Witness for C4: the gauge at bucket value 5 is five asterisks followed
by thirteen spaces between the brackets. -/
theorem gauge_shape_witness :
    (0 : ℤ) ≤ 5 ∧ (5 : ℤ) ≤ 18
    ∧ gauge 5 = [ '[' ] ++ List.replicate (Int.toNat 5) '*'
        ++ List.replicate (18 - Int.toNat 5) ' ' ++ [ ']' ] :=
  ⟨by decide, by decide, (gauge_shape 5 (by decide) (by decide)).1⟩

/-- C5: for every classified gesture, the gesture-name field printed by
`print()` has the same fixed visual width: exactly 16 characters between its
brackets. -/
theorem pose_field_width (p : Pose) :
    ∃ mid : List Char, poseField p = [ '[' ] ++ mid ++ [ ']' ] ∧ mid.length = 16 := by
  refine ⟨Pose.toStr p ++ List.replicate (sizeT (16 - ((Pose.toStr p).length : ℤ))) ' ',
    ?_, ?_⟩
  · unfold poseField
    simp [List.append_assoc]
  · cases p <;> decide

/-- C6 counterexample: the claim fails at the zero quaternion — its computed
norm is 0, so the component divisions on line 32 divide by zero, and the
domain-checked conversion rejects the input rather than succeeding. -/
theorem zero_norm_division_by_zero :
    quatNorm ⟨0, 0, 0, 0⟩ = 0
    ∧ onOrientationDataChecked initState ⟨0, 0, 0, 0⟩ = none := by
  have h : quatNorm (⟨0, 0, 0, 0⟩ : Quat) = 0 := by
    unfold quatNorm
    norm_num
  refine ⟨h, ?_⟩
  unfold onOrientationDataChecked
  rw [if_pos h]

/-- C6 (amended): for every quaternion with nonzero norm the conversion
succeeds with no division by zero, and its result depends only on the input
quaternion (the prior listener state does not affect the computed buckets). -/
theorem conversion_total_on_nonzero_norm (s : State) (q : Quat) (h : quatNorm q ≠ 0) :
    onOrientationDataChecked s q = some (onOrientationData s q)
    ∧ ∀ s' : State,
        (onOrientationData s' q).roll_w = (onOrientationData s q).roll_w
        ∧ (onOrientationData s' q).pitch_w = (onOrientationData s q).pitch_w
        ∧ (onOrientationData s' q).yaw_w = (onOrientationData s q).yaw_w := by
  constructor
  · unfold onOrientationDataChecked
    rw [if_neg h]
  · intro s'
    exact ⟨rfl, rfl, rfl⟩

/-- Witness for C6 (amended): the identity quaternion has nonzero norm and
the checked conversion succeeds on it. -/
theorem conversion_total_witness :
    quatNorm ⟨0, 0, 0, 1⟩ ≠ 0
    ∧ onOrientationDataChecked initState ⟨0, 0, 0, 1⟩ =
        some (onOrientationData initState ⟨0, 0, 0, 1⟩) := by
  have h : quatNorm (⟨0, 0, 0, 1⟩ : Quat) ≠ 0 := by
    unfold quatNorm
    norm_num
  exact ⟨h, (conversion_total_on_nonzero_norm initState ⟨0, 0, 0, 1⟩ h).1⟩

/-- C8: the program raises its single error kind exactly when discovery
times out; that error is caught at top level, printed to standard error with
a key-press prompt, and turned into exit status 1; when a device is found no
error is raised and the loop never exits. -/
theorem main_error_path :
    (∀ d : DiscoveryOutcome,
      tryBody d = Except.error ProgError.unableToFindMyo ↔ d = DiscoveryOutcome.timedOut)
    ∧ runMain DiscoveryOutcome.timedOut =
        { stderrLines := ["Error: Unable to find a Myo!".data, "Press enter to continue.".data]
          prompted := true
          exitCode := some 1 }
    ∧ runMain DiscoveryOutcome.found =
        { stderrLines := [], prompted := false, exitCode := none } := by
  refine ⟨fun d => ?_, by decide, by decide⟩
  cases d <;> simp [tryBody]

/-- C9: an event issues the medium vibration call if and only if it is a
pose event delivering the fist pose while the stored `pitch_w` is strictly
below 5; no event ever issues any other SDK call. -/
theorem vibrate_iff_fist_low_pitch (s : State) (e : Event) :
    (Action.vibrate VibrationKind.medium ∈ (step s e).2 ↔
      e = Event.poseChange Pose.fist ∧ s.pitch_w < 5)
    ∧ ((step s e).2 = [] ∨ (step s e).2 = [Action.vibrate VibrationKind.medium]) := by
  cases e with
  | orientation q => simp [step]
  | poseChange p =>
    unfold step onPose
    dsimp only
    split_ifs with hf hp
    · simp_all
    · simp_all
    · simp_all

/-- C10: each callback writes only its own fields — `onOrientationData`
leaves `currentPose` unchanged, `onPose` leaves the three bar lengths
unchanged, and `print` leaves the whole state unchanged. -/
theorem callbacks_frame (s : State) (quat : Quat) (p : Pose) :
    (onOrientationData s quat).currentPose = s.currentPose
    ∧ (onPose s p).1.roll_w = s.roll_w
    ∧ (onPose s p).1.pitch_w = s.pitch_w
    ∧ (onPose s p).1.yaw_w = s.yaw_w
    ∧ (printStep s).1 = s := by
  refine ⟨rfl, ?_, ?_, ?_, rfl⟩ <;> (unfold onPose; dsimp only; split_ifs <;> rfl)

end BikeSigns
